import Mathlib

/-!
# Earthquake dashboard (`script.js`): embedding and verified properties

The dashboard script keeps its state in module-level variables and in the page
(map layers, chart instance, table body, status line, timers, pending
requests).  Here that state is an explicit record, every function of the script
is a function on that record, and the asynchronous parts (user events, timer
ticks, fetch completions) are actions of a step function.

Conventions of the embedding:

* a JavaScript number read from the feed is its exact rational value
  (`JsVal.num`); besides numbers a field may be `null` or absent
  (`undefined`).  Rounding of floating-point products is not modelled;
* an occurrence time is the integral millisecond count of the feed, inside the
  range of `Date`, where `new Date(t)` has time value `t` and the difference of
  two dates is the difference of their time values;
* locale-dependent formatting (`toLocaleTimeString`, `toLocaleString`, number
  to text) is a parameter, `Fmt`;
* the events of an event list are well-formed (`Event`); a payload may still
  lack the list itself (`FetchResult`).
-/

namespace EarthquakeMonitor

/-! ## JavaScript values and coercions -/

/-- A value read from a numeric field of the feed: absent, `null`, or a number. -/
inductive JsVal where
  | undefined
  | null
  | num (q : ℚ)
  deriving DecidableEq

/-- The result of `ToNumber`: `NaN` or a finite number. -/
inductive JsNum where
  | nan
  | fin (q : ℚ)
  deriving DecidableEq

/-- `ToNumber(v)`: `undefined` is `NaN`, `null` is `0`. -/
def toNumber : JsVal → JsNum
  | .undefined => .nan
  | .null => .fin 0
  | .num q => .fin q

/-- The comparison `v >= c` against a numeric literal `c`; false when `v` is `NaN`. -/
def jsGe (v : JsVal) (c : ℚ) : Bool :=
  match toNumber v with
  | .nan => false
  | .fin q => decide (c ≤ q)

/-- The product `v * c` with a numeric literal `c`. -/
def jsMul (v : JsVal) (c : ℚ) : JsNum :=
  match toNumber v with
  | .nan => .nan
  | .fin q => .fin (q * c)

/-! ## Events and formatting -/

/-- One well-formed feature of the feed: `properties.{place, mag, time}` and
`geometry.coordinates = [lng, lat, depth]`.  The place is a text, the time and
the two map coordinates are numbers; magnitude and depth may be null or absent. -/
structure Event where
  place : String
  mag : JsVal
  time : Int
  lng : ℚ
  lat : ℚ
  depth : JsVal
  deriving DecidableEq

/-- Locale-dependent text conversions used by the script. -/
structure Fmt where
  toLocaleTimeString : Int → String
  toLocaleString : Int → String
  /-- a value inside a template literal -/
  numText : JsVal → String
  /-- a value assigned to `textContent` -/
  textContent : JsVal → String

/-! ## Magnitude classification, as written at the three places of the script -/

/-- Bar colour pushed by `prepareChartData` (lines 138-144). -/
def chartColor (mag : JsVal) : String :=
  if jsGe mag 6 then "rgba(255, 0, 0, 0.7)"
  else if jsGe mag 4.5 then "rgba(255, 165, 0, 0.7)"
  else "rgba(0, 123, 255, 0.7)"

/-- Fill colour chosen by `addEarthquakesToMap` (lines 242-248). -/
def markerColor (magnitude : JsVal) : String :=
  if jsGe magnitude 6 then "#ff0000"
  else if jsGe magnitude 4.5 then "#ffa500"
  else "#007bff"

/-- Marker radius computed by `addEarthquakesToMap` (line 239): `magnitude * 3`. -/
def markerSize (magnitude : JsVal) : JsNum :=
  jsMul magnitude 3

/-- Inline style of a magnitude cell: `style.color` and `style.fontWeight`,
each `none` while the script leaves it unset. -/
structure CellStyle where
  color : Option String
  fontWeight : Option String
  deriving DecidableEq

/-- Style given to the magnitude cell by `updateEarthquakeTable` (lines 299-304). -/
def magCellStyle (mag : JsVal) : CellStyle :=
  if jsGe mag 6 then { color := some "red", fontWeight := some "bold" }
  else if jsGe mag 4.5 then { color := some "orange", fontWeight := none }
  else { color := none, fontWeight := none }

/-- Severity tiers of the specification. -/
inductive Tier where
  | HIGH
  | MEDIUM
  | LOW
  deriving DecidableEq

/-- The tier a chart bar colour stands for. -/
def chartTier (c : String) : Option Tier :=
  if c = "rgba(255, 0, 0, 0.7)" then some .HIGH
  else if c = "rgba(255, 165, 0, 0.7)" then some .MEDIUM
  else if c = "rgba(0, 123, 255, 0.7)" then some .LOW
  else none

/-- The tier a marker fill colour stands for. -/
def markerTier (c : String) : Option Tier :=
  if c = "#ff0000" then some .HIGH
  else if c = "#ffa500" then some .MEDIUM
  else if c = "#007bff" then some .LOW
  else none

/-- The tier a magnitude cell style stands for: red and bold, orange, or unstyled. -/
def cellTier (s : CellStyle) : Option Tier :=
  if s = { color := some "red", fontWeight := some "bold" } then some .HIGH
  else if s = { color := some "orange", fontWeight := none } then some .MEDIUM
  else if s = { color := none, fontWeight := none } then some .LOW
  else none

/-- The magnitude as a known number, if it is one. -/
def JsVal.known : JsVal → Option ℚ
  | .num q => some q
  | _ => none

/-- Severity tier as the specification words it: HIGH from 6, MEDIUM from 4.5
below 6, LOW below 4.5 or when the magnitude is unknown. -/
def specTier (mag : JsVal) : Tier :=
  match mag.known with
  | some q => if 6 ≤ q then .HIGH else if 4.5 ≤ q then .MEDIUM else .LOW
  | none => .LOW

/-! ## Feed URL -/

/-- The URL chosen by the `switch` of `fetchEarthquakeData` (lines 72-88). -/
def feedUrl (timeRange minMagnitude : String) : String :=
  if timeRange = "hour" then
    "https://earthquake.usgs.gov/earthquakes/feed/v1.0/summary/all_hour.geojson"
  else if timeRange = "day" then
    "https://earthquake.usgs.gov/earthquakes/feed/v1.0/summary/" ++ minMagnitude ++ "_day.geojson"
  else if timeRange = "week" then
    "https://earthquake.usgs.gov/earthquakes/feed/v1.0/summary/" ++ minMagnitude ++ "_week.geojson"
  else if timeRange = "month" then
    "https://earthquake.usgs.gov/earthquakes/feed/v1.0/summary/" ++ minMagnitude ++ "_month.geojson"
  else
    "https://earthquake.usgs.gov/earthquakes/feed/v1.0/summary/" ++ minMagnitude ++ "_day.geojson"

/-! ## Sorting -/

/-- The comparator of line 108, `new Date(b.time) - new Date(a.time)`. -/
def compareByTime (a b : Event) : Int :=
  b.time - a.time

/-- `Array.prototype.sort(cmp)`: a stable sort in which `a` is placed before `b`
when `cmp a b ≤ 0`, given as insertion sort. -/
def jsSort {α : Type} (cmp : α → α → Int) (l : List α) : List α :=
  l.insertionSort (fun a b => cmp a b ≤ 0)

/-- The sort of `processEarthquakeData` (line 108). -/
def sortNewestFirst (earthquakes : List Event) : List Event :=
  jsSort compareByTime earthquakes

/-! ## Chart projection -/

/-- The object returned by `prepareChartData`. -/
structure ChartData where
  labels : List String
  magnitudeData : List JsVal
  depthData : List JsVal
  colors : List String
  deriving DecidableEq

/-- One iteration of the `forEach` of `prepareChartData` (lines 131-145): a
push onto each of the four arrays. -/
def pushQuake (F : Fmt) (acc : ChartData) (quake : Event) : ChartData :=
  { labels := acc.labels ++ [F.toLocaleTimeString quake.time]
    magnitudeData := acc.magnitudeData ++ [quake.mag]
    depthData := acc.depthData ++ [quake.depth]
    colors := acc.colors ++ [chartColor quake.mag] }

/-- The events charted: `earthquakes.slice(0, 20).reverse()` (line 129). -/
def recentEarthquakes (earthquakes : List Event) : List Event :=
  (earthquakes.take 20).reverse

/-- `prepareChartData` (lines 122-153). -/
def prepareChartData (F : Fmt) (earthquakes : List Event) : ChartData :=
  (recentEarthquakes earthquakes).foldl (pushQuake F)
    { labels := [], magnitudeData := [], depthData := [], colors := [] }

/-! ## Page state -/

/-- A circle marker made by `L.circleMarker`; `id` is the identity of the layer object. -/
structure Marker where
  id : Nat
  lat : ℚ
  lng : ℚ
  radius : JsNum
  fillColor : String
  popup : String
  deriving DecidableEq

/-- A chart object made by `new Chart`; `id` is its identity. -/
structure ChartInstance where
  id : Nat
  data : ChartData
  deriving DecidableEq

/-- A row of the table body: the text of its four cells and the magnitude cell style. -/
structure Row where
  place : String
  mag : String
  magStyle : CellStyle
  depth : String
  time : String
  deriving DecidableEq

/-- The script's globals together with the part of the page and of the host
they act on. -/
structure Page where
  /-- global `earthquakeChart` -/
  earthquakeChart : Option ChartInstance
  /-- global `markers` -/
  markers : List Marker
  /-- global `autoRefreshInterval` -/
  autoRefreshInterval : Option Nat
  /-- global `isAutoRefreshEnabled` -/
  isAutoRefreshEnabled : Bool
  /-- circle markers currently on `earthquakeMap` -/
  mapLayers : List Marker
  /-- identity given to the next layer object -/
  nextLayerId : Nat
  /-- chart objects created and not destroyed -/
  liveCharts : List Nat
  /-- identity given to the next chart object -/
  nextChartId : Nat
  /-- rows of `earthquakeTableBody` -/
  tableRows : List Row
  /-- text of `refreshStatus` -/
  refreshStatus : String
  /-- text of `autoRefreshBtn` -/
  autoRefreshBtnText : String
  /-- whether `autoRefreshBtn` has class `active` -/
  autoRefreshBtnActive : Bool
  /-- value of the `timeRange` selector -/
  timeRange : String
  /-- value of the `minMagnitude` selector -/
  minMagnitude : String
  /-- interval timers set and not cleared -/
  liveTimers : List Nat
  /-- handle returned by the next `setInterval` -/
  nextTimerId : Nat
  /-- URLs of the fetches issued and not yet settled -/
  pending : List String
  deriving DecidableEq

/-- `updateRefreshStatus` (lines 54-63); the one-second pulse is cosmetic and left out. -/
def updateRefreshStatus (s : Page) (message : String) : Page :=
  { s with refreshStatus := message }

/-! ## View sinks -/

/-- `earthquakeMap.removeLayer(marker)`. -/
def removeLayer (layers : List Marker) (marker : Marker) : List Marker :=
  layers.filter (fun l => l.id ≠ marker.id)

/-- `clearMapMarkers` (lines 279-284). -/
def clearMapMarkers (s : Page) : Page :=
  { s with
    mapLayers := s.markers.foldl removeLayer s.mapLayers
    markers := [] }

/-- `updateChart` (lines 156-225): destroy the previous chart object, create a new one. -/
def updateChart (s : Page) (chartData : ChartData) : Page :=
  let live :=
    match s.earthquakeChart with
    | some c => s.liveCharts.filter (fun i => i ≠ c.id)
    | none => s.liveCharts
  { s with
    earthquakeChart := some { id := s.nextChartId, data := chartData }
    liveCharts := live ++ [s.nextChartId]
    nextChartId := s.nextChartId + 1 }

/-- Popup text bound to a marker (lines 261-266). -/
def popupText (F : Fmt) (quake : Event) : String :=
  "\n            <strong>Location:</strong> " ++ quake.place ++
  "<br>\n            <strong>Magnitude:</strong> " ++ F.numText quake.mag ++
  "<br>\n            <strong>Depth:</strong> " ++ F.numText quake.depth ++
  " km<br>\n            <strong>Time:</strong> " ++ F.toLocaleString quake.time ++
  "\n        "

/-- The circle marker created for one event (lines 230-266), as the layer object `id`. -/
def circleMarker (F : Fmt) (id : Nat) (quake : Event) : Marker :=
  { id := id
    lat := quake.lat
    lng := quake.lng
    radius := markerSize quake.mag
    fillColor := markerColor quake.mag
    popup := popupText F quake }

/-- One iteration of the `forEach` of `addEarthquakesToMap` (lines 229-269):
create the circle marker, add it to the map, push it onto `markers`. -/
def addQuake (F : Fmt) (s : Page) (quake : Event) : Page :=
  let marker := circleMarker F s.nextLayerId quake
  { s with
    mapLayers := s.mapLayers ++ [marker]
    markers := s.markers ++ [marker]
    nextLayerId := s.nextLayerId + 1 }

/-- `addEarthquakesToMap` (lines 228-276); the viewport fit is not part of the state. -/
def addEarthquakesToMap (F : Fmt) (s : Page) (earthquakes : List Event) : Page :=
  earthquakes.foldl (addQuake F) s

/-- The row built for one event by `updateEarthquakeTable` (lines 292-315). -/
def tableRow (F : Fmt) (quake : Event) : Row :=
  { place := quake.place
    mag := F.textContent quake.mag
    magStyle := magCellStyle quake.mag
    depth := F.numText quake.depth ++ " km"
    time := F.toLocaleString quake.time }

/-- `updateEarthquakeTable` (lines 287-319): empty the body, then append one
row for each of `earthquakes.slice(0, 50)`. -/
def updateEarthquakeTable (F : Fmt) (s : Page) (earthquakes : List Event) : Page :=
  (earthquakes.take 50).foldl
    (fun t quake => { t with tableRows := t.tableRows ++ [tableRow F quake] })
    { s with tableRows := [] }

/-! ## The refresh cycle -/

/-- How a call ended: it returned, or it threw, in both cases leaving a page state. -/
inductive Outcome where
  | returned (s : Page)
  | threw (s : Page)
  deriving DecidableEq

/-- The page state a call left behind. -/
def Outcome.page : Outcome → Page
  | .returned s => s
  | .threw s => s

/-- `processEarthquakeData` (lines 103-119).  The argument is `data.features`:
`none` when it is not an array, in which case `earthquakes.sort` throws after
`clearMapMarkers` has run. -/
def processEarthquakeData (F : Fmt) (s : Page) (earthquakes : Option (List Event)) : Outcome :=
  let s1 := clearMapMarkers s
  match earthquakes with
  | none => .threw s1
  | some es =>
    let sorted := sortNewestFirst es
    let chartData := prepareChartData F sorted
    let s2 := updateChart s1 chartData
    let s3 := addEarthquakesToMap F s2 sorted
    .returned (updateEarthquakeTable F s3 sorted)

/-- What `fetch(url).then(response => response.json())` delivers. -/
inductive FetchResult where
  /-- the fetch promise rejects -/
  | rejected
  /-- the body is not valid JSON: `response.json()` rejects -/
  | invalidJson
  /-- the body parses to `null`: reading `data.features` throws -/
  | nullData
  /-- the body parses to a value whose `features` is an event list or is not one -/
  | data (features : Option (List Event))
  deriving DecidableEq

/-- `fetchEarthquakeData` (lines 66-90) up to the point where the request is issued. -/
def fetchEarthquakeData (s : Page) : Page :=
  let s1 := updateRefreshStatus s "Refreshing data..."
  { s1 with pending := s1.pending ++ [feedUrl s1.timeRange s1.minMagnitude] }

/-- The promise chain of `fetchEarthquakeData` (lines 91-99) run on a result:
`now` is the text of `new Date().toLocaleTimeString()`. -/
def onSettled (F : Fmt) (now : String) (s : Page) : FetchResult → Page
  | .rejected => updateRefreshStatus s "Error fetching data. Try again."
  | .invalidJson => updateRefreshStatus s "Error fetching data. Try again."
  | .nullData => updateRefreshStatus s "Error fetching data. Try again."
  | .data features =>
    match processEarthquakeData F s features with
    | .returned s1 => updateRefreshStatus s1 ("Last updated: " ++ now)
    | .threw s1 => updateRefreshStatus s1 "Error fetching data. Try again."

/-- `clearInterval(handle)`; a `null` handle clears nothing. -/
def clearInterval (live : List Nat) : Option Nat → List Nat
  | none => live
  | some h => live.filter (fun t => t ≠ h)

/-- `toggleAutoRefresh` (lines 35-51). -/
def toggleAutoRefresh (s : Page) : Page :=
  let s1 := { s with isAutoRefreshEnabled := !s.isAutoRefreshEnabled }
  if s1.isAutoRefreshEnabled then
    updateRefreshStatus
      { s1 with
        autoRefreshBtnText := "Disable Auto-Refresh"
        autoRefreshBtnActive := true
        autoRefreshInterval := some s1.nextTimerId
        liveTimers := s1.liveTimers ++ [s1.nextTimerId]
        nextTimerId := s1.nextTimerId + 1 }
      "Auto-refresh enabled (every 10 seconds)"
  else
    updateRefreshStatus
      { s1 with
        autoRefreshBtnText := "Enable Auto-Refresh (10s)"
        autoRefreshBtnActive := false
        liveTimers := clearInterval s1.liveTimers s1.autoRefreshInterval
        autoRefreshInterval := none }
      "Auto-refresh disabled"

/-- The page when the script is loaded, before `DOMContentLoaded`: the globals
as initialised on lines 2-6, the selectors at the given values. -/
def boot (timeRange minMagnitude : String) : Page :=
  { earthquakeChart := none
    markers := []
    autoRefreshInterval := none
    isAutoRefreshEnabled := false
    mapLayers := []
    nextLayerId := 0
    liveCharts := []
    nextChartId := 0
    tableRows := []
    refreshStatus := ""
    autoRefreshBtnText := ""
    autoRefreshBtnActive := false
    timeRange := timeRange
    minMagnitude := minMagnitude
    liveTimers := []
    nextTimerId := 0
    pending := [] }

/-- The page after the `DOMContentLoaded` handler (lines 9-13): the first fetch is issued. -/
def start (timeRange minMagnitude : String) : Page :=
  fetchEarthquakeData (boot timeRange minMagnitude)

/-- What the event loop can deliver to the script. -/
inductive Action where
  /-- click on `refreshBtn` -/
  | refreshClick
  /-- `change` of the `timeRange` selector to a value -/
  | timeRangeChange (v : String)
  /-- `change` of the `minMagnitude` selector to a value -/
  | minMagnitudeChange (v : String)
  /-- click on `autoRefreshBtn` -/
  | autoRefreshClick
  /-- the interval timer with this handle fires -/
  | tick (h : Nat)
  /-- the pending fetch at this position settles -/
  | settle (i : Nat) (r : FetchResult) (now : String)

/-- One turn of the event loop; `none` when the host cannot deliver the action
(a timer that is not live, a fetch that is not pending). -/
def step (F : Fmt) (s : Page) : Action → Option Page
  | .refreshClick => some (fetchEarthquakeData s)
  | .timeRangeChange v => some (fetchEarthquakeData { s with timeRange := v })
  | .minMagnitudeChange v => some (fetchEarthquakeData { s with minMagnitude := v })
  | .autoRefreshClick => some (toggleAutoRefresh s)
  | .tick h => if h ∈ s.liveTimers then some (fetchEarthquakeData s) else none
  | .settle i r now =>
    if i < s.pending.length then
      some (onSettled F now { s with pending := s.pending.eraseIdx i } r)
    else none

/-- A sequence of turns. -/
def run (F : Fmt) (s : Page) : List Action → Option Page
  | [] => some s
  | a :: as =>
    match step F s a with
    | some s1 => run F s1 as
    | none => none

/-- The number of outstanding network calls. -/
def Page.outstanding (s : Page) : Nat :=
  s.pending.length

/-- A formatting used to evaluate the script on concrete inputs. -/
def plainFmt : Fmt :=
  { toLocaleTimeString := fun t => toString t
    toLocaleString := fun t => toString t
    numText := fun v =>
      match v with
      | .undefined => "undefined"
      | .null => "null"
      | .num q => toString q.num ++ "/" ++ toString q.den
    textContent := fun v =>
      match v with
      | .undefined => ""
      | .null => ""
      | .num q => toString q.num ++ "/" ++ toString q.den }

/-- Whether an action is a manual trigger (refresh button, selector change) or
a periodic tick. -/
def Action.isTrigger : Action → Bool
  | .refreshClick => true
  | .timeRangeChange _ => true
  | .minMagnitudeChange _ => true
  | .tick _ => true
  | .autoRefreshClick => false
  | .settle _ _ _ => false

/-- A sample event with the given time and magnitude. -/
def quakeAt (time : Int) (mag : JsVal) : Event :=
  { place := "somewhere", mag := mag, time := time, lng := 0, lat := 0, depth := .num 10 }

/-! ## Closed forms of the loops -/

/-- The markers created for a list of events, the first as layer object `n`. -/
def newMarkers (F : Fmt) (n : Nat) : List Event → List Marker
  | [] => []
  | quake :: rest => circleMarker F n quake :: newMarkers F (n + 1) rest

theorem foldl_pushQuake (F : Fmt) (l : List Event) (acc : ChartData) :
    l.foldl (pushQuake F) acc =
      { labels := acc.labels ++ l.map (fun q => F.toLocaleTimeString q.time)
        magnitudeData := acc.magnitudeData ++ l.map (fun q => q.mag)
        depthData := acc.depthData ++ l.map (fun q => q.depth)
        colors := acc.colors ++ l.map (fun q => chartColor q.mag) } := by
  induction l generalizing acc with
  | nil => simp
  | cons q l ih => simp [ih, pushQuake]

theorem prepareChartData_eq (F : Fmt) (es : List Event) :
    prepareChartData F es =
      { labels := (recentEarthquakes es).map (fun q => F.toLocaleTimeString q.time)
        magnitudeData := (recentEarthquakes es).map (fun q => q.mag)
        depthData := (recentEarthquakes es).map (fun q => q.depth)
        colors := (recentEarthquakes es).map (fun q => chartColor q.mag) } := by
  simp [prepareChartData, foldl_pushQuake]

theorem length_recentEarthquakes (es : List Event) :
    (recentEarthquakes es).length = min es.length 20 := by
  simp [recentEarthquakes, Nat.min_comm]

theorem length_newMarkers (F : Fmt) (n : Nat) (es : List Event) :
    (newMarkers F n es).length = es.length := by
  induction es generalizing n with
  | nil => rfl
  | cons q es ih => simp [newMarkers, ih]

theorem id_newMarkers (F : Fmt) (n : Nat) (es : List Event) :
    ∀ m ∈ newMarkers F n es, n ≤ m.id ∧ m.id < n + es.length := by
  induction es generalizing n with
  | nil => simp [newMarkers]
  | cons q es ih =>
    intro m hm
    simp only [newMarkers, List.mem_cons] at hm
    rcases hm with rfl | hm
    · simp [circleMarker]
    · have := ih (n + 1) m hm
      simp only [List.length_cons]
      omega

theorem foldl_addQuake (F : Fmt) (es : List Event) (s : Page) :
    es.foldl (addQuake F) s =
      { s with
        mapLayers := s.mapLayers ++ newMarkers F s.nextLayerId es
        markers := s.markers ++ newMarkers F s.nextLayerId es
        nextLayerId := s.nextLayerId + es.length } := by
  induction es generalizing s with
  | nil => simp [newMarkers]
  | cons q es ih =>
    simp only [List.foldl_cons, ih, addQuake, newMarkers, List.length_cons, List.append_assoc,
      List.singleton_append]
    congr 1
    omega

theorem foldl_tableRow (F : Fmt) (es : List Event) (s : Page) :
    es.foldl (fun t quake => { t with tableRows := t.tableRows ++ [tableRow F quake] }) s =
      { s with tableRows := s.tableRows ++ es.map (tableRow F) } := by
  induction es generalizing s with
  | nil => simp
  | cons q es ih => simp [ih]

theorem updateEarthquakeTable_eq (F : Fmt) (s : Page) (es : List Event) :
    updateEarthquakeTable F s es = { s with tableRows := (es.take 50).map (tableRow F) } := by
  simp [updateEarthquakeTable, foldl_tableRow]

theorem foldl_removeLayer (ms layers : List Marker) :
    ms.foldl removeLayer layers = layers.filter (fun l => ∀ m ∈ ms, l.id ≠ m.id) := by
  induction ms generalizing layers with
  | nil => simp
  | cons m ms ih =>
    simp only [List.foldl_cons, ih, removeLayer, List.filter_filter]
    congr 1
    funext l
    simp [Bool.and_comm]

/-! ## The sort -/

theorem perm_sortNewestFirst (es : List Event) : (sortNewestFirst es).Perm es :=
  List.perm_insertionSort _ es

theorem length_sortNewestFirst (es : List Event) : (sortNewestFirst es).length = es.length :=
  (perm_sortNewestFirst es).length_eq

theorem processEarthquakeData_some (F : Fmt) (s : Page) (es : List Event) :
    processEarthquakeData F s (some es) =
      .returned
        { s with
          earthquakeChart :=
            some { id := s.nextChartId, data := prepareChartData F (sortNewestFirst es) }
          liveCharts :=
            (match s.earthquakeChart with
              | some c => s.liveCharts.filter (fun i => i ≠ c.id)
              | none => s.liveCharts) ++ [s.nextChartId]
          nextChartId := s.nextChartId + 1
          mapLayers :=
            s.mapLayers.filter (fun l => ∀ m ∈ s.markers, l.id ≠ m.id) ++
              newMarkers F s.nextLayerId (sortNewestFirst es)
          markers := newMarkers F s.nextLayerId (sortNewestFirst es)
          nextLayerId := s.nextLayerId + es.length
          tableRows := ((sortNewestFirst es).take 50).map (tableRow F) } := by
  simp [processEarthquakeData, updateEarthquakeTable_eq, addEarthquakesToMap, foldl_addQuake,
    updateChart, clearMapMarkers, foldl_removeLayer, length_sortNewestFirst]

theorem processEarthquakeData_none (F : Fmt) (s : Page) :
    processEarthquakeData F s none =
      .threw
        { s with
          mapLayers := s.mapLayers.filter (fun l => ∀ m ∈ s.markers, l.id ≠ m.id)
          markers := [] } := by
  simp [processEarthquakeData, clearMapMarkers, foldl_removeLayer]

/-! ## Ownership of the map layers -/

theorem filter_own_markers (ms : List Marker) :
    ms.filter (fun l => ∀ m ∈ ms, l.id ≠ m.id) = [] := by
  rw [List.filter_eq_nil_iff]
  intro l hl
  simp only [decide_eq_true_eq, not_forall]
  exact ⟨l, hl, fun h => h rfl⟩

theorem toggleAutoRefresh_layers (s : Page) :
    (toggleAutoRefresh s).mapLayers = s.mapLayers ∧ (toggleAutoRefresh s).markers = s.markers := by
  cases h : s.isAutoRefreshEnabled <;> simp [toggleAutoRefresh, updateRefreshStatus, h]

theorem onSettled_owned (F : Fmt) (now : String) (s : Page) (r : FetchResult)
    (h : s.mapLayers = s.markers) :
    (onSettled F now s r).mapLayers = (onSettled F now s r).markers := by
  cases r with
  | rejected => exact h
  | invalidJson => exact h
  | nullData => exact h
  | data features =>
    cases features with
    | none =>
      simp only [onSettled, processEarthquakeData_none, updateRefreshStatus]
      rw [h]
      exact filter_own_markers _
    | some es =>
      simp only [onSettled, processEarthquakeData_some, updateRefreshStatus]
      rw [h, filter_own_markers]
      rfl

theorem step_owned (F : Fmt) (s s1 : Page) (a : Action) (h : s.mapLayers = s.markers)
    (hs : step F s a = some s1) : s1.mapLayers = s1.markers := by
  cases a with
  | refreshClick =>
    simp only [step, Option.some.injEq] at hs
    subst hs
    exact h
  | timeRangeChange v =>
    simp only [step, Option.some.injEq] at hs
    subst hs
    exact h
  | minMagnitudeChange v =>
    simp only [step, Option.some.injEq] at hs
    subst hs
    exact h
  | autoRefreshClick =>
    simp only [step, Option.some.injEq] at hs
    subst hs
    rw [(toggleAutoRefresh_layers s).1, (toggleAutoRefresh_layers s).2]
    exact h
  | tick t =>
    simp only [step] at hs
    split at hs
    · simp only [Option.some.injEq] at hs
      subst hs
      exact h
    · exact absurd hs (by simp)
  | settle i r now =>
    simp only [step] at hs
    split at hs
    · simp only [Option.some.injEq] at hs
      subst hs
      exact onSettled_owned F now _ r h
    · exact absurd hs (by simp)

theorem run_owned (F : Fmt) (acts : List Action) (s s1 : Page) (h : s.mapLayers = s.markers)
    (hs : run F s acts = some s1) : s1.mapLayers = s1.markers := by
  induction acts generalizing s with
  | nil =>
    simp only [run, Option.some.injEq] at hs
    subst hs
    exact h
  | cons a acts ih =>
    simp only [run] at hs
    cases hstep : step F s a with
    | none => simp [hstep] at hs
    | some s2 =>
      rw [hstep] at hs
      exact ih s2 (step_owned F s s2 a h hstep) hs

/-! ## Classification -/

theorem jsGe_num (q c : ℚ) : jsGe (.num q) c = decide (c ≤ q) := rfl

theorem jsGe_null (c : ℚ) : jsGe .null c = decide (c ≤ 0) := rfl

theorem jsGe_undefined (c : ℚ) : jsGe .undefined c = false := rfl

/-- C1: for every magnitude value, null and missing included, the chart bar
colour, the marker fill colour and the table cell style stand for one and the
same tier, the tier of the specification: HIGH exactly for a number `≥ 6`,
MEDIUM exactly for a number in `[4.5, 6)`, LOW for everything else; the
boundary values 6.0, 5.999, 4.5, 4.499 and null fall as listed. -/
theorem severity_tier_agrees (m : JsVal) :
    chartTier (chartColor m) = some (specTier m) ∧
    markerTier (markerColor m) = some (specTier m) ∧
    cellTier (magCellStyle m) = some (specTier m) ∧
    (specTier m = .HIGH ↔ ∃ q, m = .num q ∧ 6 ≤ q) ∧
    (specTier m = .MEDIUM ↔ ∃ q, m = .num q ∧ 4.5 ≤ q ∧ q < 6) ∧
    (specTier m = .LOW ↔ ∀ q, m = .num q → q < 4.5) ∧
    chartColor (.num 6.0) = "rgba(255, 0, 0, 0.7)" ∧
    chartColor (.num 5.999) = "rgba(255, 165, 0, 0.7)" ∧
    chartColor (.num 4.5) = "rgba(255, 165, 0, 0.7)" ∧
    chartColor (.num 4.499) = "rgba(0, 123, 255, 0.7)" ∧
    chartColor .null = "rgba(0, 123, 255, 0.7)" ∧
    chartColor .undefined = "rgba(0, 123, 255, 0.7)" := by
  refine ⟨?_, ?_, ?_, ?_, ?_, ?_, ?_, ?_, ?_, ?_, ?_, ?_⟩
  · cases m with
    | undefined => decide
    | null =>
      have h6 : ¬ ((6 : ℚ) ≤ 0) := by norm_num
      have h45 : ¬ ((4.5 : ℚ) ≤ 0) := by norm_num
      simp [chartColor, jsGe_null, specTier, JsVal.known, h6, h45, chartTier]
    | num q =>
      by_cases h6 : (6 : ℚ) ≤ q
      · simp [chartColor, jsGe_num, specTier, JsVal.known, h6, chartTier]
      · by_cases h45 : (4.5 : ℚ) ≤ q
        · simp [chartColor, jsGe_num, specTier, JsVal.known, h6, h45, chartTier]
        · simp [chartColor, jsGe_num, specTier, JsVal.known, h6, h45, chartTier]
  · cases m with
    | undefined => decide
    | null =>
      have h6 : ¬ ((6 : ℚ) ≤ 0) := by norm_num
      have h45 : ¬ ((4.5 : ℚ) ≤ 0) := by norm_num
      simp [markerColor, jsGe_null, specTier, JsVal.known, h6, h45, markerTier]
    | num q =>
      by_cases h6 : (6 : ℚ) ≤ q
      · simp [markerColor, jsGe_num, specTier, JsVal.known, h6, markerTier]
      · by_cases h45 : (4.5 : ℚ) ≤ q
        · simp [markerColor, jsGe_num, specTier, JsVal.known, h6, h45, markerTier]
        · simp [markerColor, jsGe_num, specTier, JsVal.known, h6, h45, markerTier]
  · cases m with
    | undefined => decide
    | null =>
      have h6 : ¬ ((6 : ℚ) ≤ 0) := by norm_num
      have h45 : ¬ ((4.5 : ℚ) ≤ 0) := by norm_num
      simp [magCellStyle, jsGe_null, specTier, JsVal.known, h6, h45, cellTier]
    | num q =>
      by_cases h6 : (6 : ℚ) ≤ q
      · simp [magCellStyle, jsGe_num, specTier, JsVal.known, h6, cellTier]
      · by_cases h45 : (4.5 : ℚ) ≤ q
        · simp [magCellStyle, jsGe_num, specTier, JsVal.known, h6, h45, cellTier]
        · simp [magCellStyle, jsGe_num, specTier, JsVal.known, h6, h45, cellTier]
  · cases m with
    | undefined => simp [specTier, JsVal.known]
    | null => simp [specTier, JsVal.known]
    | num q =>
      by_cases h6 : (6 : ℚ) ≤ q
      · simp [specTier, JsVal.known, h6]
      · by_cases h45 : (4.5 : ℚ) ≤ q <;> simp [specTier, JsVal.known, h6, h45]
  · cases m with
    | undefined => simp [specTier, JsVal.known]
    | null => simp [specTier, JsVal.known]
    | num q =>
      by_cases h6 : (6 : ℚ) ≤ q
      · simp [specTier, JsVal.known, h6]
      · by_cases h45 : (4.5 : ℚ) ≤ q
        · simp [specTier, JsVal.known, h6, h45]
          exact not_le.mp h6
        · simp [specTier, JsVal.known, h6, h45]
  · cases m with
    | undefined => simp [specTier, JsVal.known]
    | null => simp [specTier, JsVal.known]
    | num q =>
      by_cases h6 : (6 : ℚ) ≤ q
      · have : ¬ q < 4.5 := by
          intro h
          have : (4.5 : ℚ) < 6 := by norm_num
          linarith
        simp [specTier, JsVal.known, h6, this]
      · by_cases h45 : (4.5 : ℚ) ≤ q
        · simp [specTier, JsVal.known, h6, h45]
        · simp [specTier, JsVal.known, h6, h45]
          exact not_le.mp h45
  · simp [chartColor, jsGe_num]
    norm_num
  · simp [chartColor, jsGe_num]
    norm_num
  · simp [chartColor, jsGe_num]
    norm_num
  · simp [chartColor, jsGe_num]
    norm_num
  · simp [chartColor, jsGe_null]
    norm_num
  · decide

/-! ## Feed URL -/

/-- C9: the URL requested by `fetchEarthquakeData` is `feedUrl` of the two
selector values of the page and of nothing else, and for a time window other
than `hour`, `day`, `week`, `month` it is the URL built for `day` with the same
minimum magnitude. -/
theorem feedUrl_fallback_day (s : Page) (timeRange minMagnitude : String)
    (hh : timeRange ≠ "hour") (hd : timeRange ≠ "day")
    (hw : timeRange ≠ "week") (hm : timeRange ≠ "month") :
    (fetchEarthquakeData s).pending = s.pending ++ [feedUrl s.timeRange s.minMagnitude] ∧
    feedUrl timeRange minMagnitude = feedUrl "day" minMagnitude ∧
    feedUrl timeRange minMagnitude =
      "https://earthquake.usgs.gov/earthquakes/feed/v1.0/summary/" ++ minMagnitude ++
        "_day.geojson" := by
  refine ⟨rfl, ?_, ?_⟩
  · simp [feedUrl, hh, hd, hw, hm]
  · simp [feedUrl, hh, hd, hw, hm]

theorem feedUrl_fallback_day_witness :
    (fetchEarthquakeData (boot "year" "2.5")).pending =
      (boot "year" "2.5").pending ++
        [feedUrl (boot "year" "2.5").timeRange (boot "year" "2.5").minMagnitude] ∧
    feedUrl "year" "2.5" = feedUrl "day" "2.5" ∧
    feedUrl "year" "2.5" =
      "https://earthquake.usgs.gov/earthquakes/feed/v1.0/summary/" ++ "2.5" ++ "_day.geojson" :=
  feedUrl_fallback_day (boot "year" "2.5") "year" "2.5"
    (by decide) (by decide) (by decide) (by decide)

/-! ## Marker radius -/

/-- C2: for an event list of any length `n`, the four arrays returned by
`prepareChartData` all have length `min n 20` and `updateEarthquakeTable`
leaves exactly `min n 50` rows in the table, whatever rows were there; so the
chart never has more than 20 entries and the table never more than 50. -/
theorem projections_bounded (F : Fmt) (s : Page) (es : List Event) :
    (prepareChartData F es).labels.length = min es.length 20 ∧
    (prepareChartData F es).magnitudeData.length = min es.length 20 ∧
    (prepareChartData F es).depthData.length = min es.length 20 ∧
    (prepareChartData F es).colors.length = min es.length 20 ∧
    (updateEarthquakeTable F s es).tableRows.length = min es.length 50 ∧
    (prepareChartData F es).labels.length ≤ 20 ∧
    (updateEarthquakeTable F s es).tableRows.length ≤ 50 := by
  have hc := length_recentEarthquakes es
  have ht : (updateEarthquakeTable F s es).tableRows.length = min es.length 50 := by
    simp [updateEarthquakeTable_eq, Nat.min_comm]
  rw [prepareChartData_eq]
  simp only [List.length_map, hc, ht]
  refine ⟨trivial, trivial, trivial, trivial, trivial, ?_, ?_⟩
  · exact Nat.min_le_right _ _
  · exact Nat.min_le_right _ _

/-- C8: from any state the page can reach, a cycle rendering `A` followed by a
cycle rendering `B` leaves as owned markers, and as circle layers on the map,
exactly the markers created for the events of `B`: their number is the length
of `B` and no layer of the map is a marker of the first cycle.  For any state
at all, `processEarthquakeData` leaves as many owned markers as it was given
events. -/
theorem markers_fully_replaced (F : Fmt) (timeRange minMagnitude : String) (acts : List Action)
    (s0 : Page) (A B : List Event)
    (hreach : run F (start timeRange minMagnitude) acts = some s0) :
    (processEarthquakeData F (processEarthquakeData F s0 (some A)).page (some B)).page.markers =
      newMarkers F (s0.nextLayerId + A.length) (sortNewestFirst B) ∧
    (processEarthquakeData F (processEarthquakeData F s0 (some A)).page (some B)).page.mapLayers =
      (processEarthquakeData F (processEarthquakeData F s0 (some A)).page (some B)).page.markers ∧
    (processEarthquakeData F (processEarthquakeData F s0 (some A)).page
      (some B)).page.markers.length = B.length ∧
    (∀ m ∈ (processEarthquakeData F (processEarthquakeData F s0 (some A)).page
        (some B)).page.mapLayers,
      ∀ a ∈ (processEarthquakeData F s0 (some A)).page.markers, m.id ≠ a.id) ∧
    (∀ (s : Page) (es : List Event),
      (processEarthquakeData F s (some es)).page.markers.length = es.length) := by
  have hown : s0.mapLayers = s0.markers := run_owned F acts _ s0 rfl hreach
  have hlen : ∀ (s : Page) (es : List Event),
      (processEarthquakeData F s (some es)).page.markers.length = es.length := by
    intro s es
    rw [processEarthquakeData_some]
    simp [Outcome.page, length_newMarkers, length_sortNewestFirst]
  have hB : (processEarthquakeData F (processEarthquakeData F s0 (some A)).page
      (some B)).page.markers = newMarkers F (s0.nextLayerId + A.length) (sortNewestFirst B) := by
    rw [processEarthquakeData_some, processEarthquakeData_some]
    rfl
  have hL : (processEarthquakeData F (processEarthquakeData F s0 (some A)).page
      (some B)).page.mapLayers = newMarkers F (s0.nextLayerId + A.length) (sortNewestFirst B) := by
    rw [processEarthquakeData_some, processEarthquakeData_some]
    simp only [Outcome.page]
    rw [hown, filter_own_markers, List.nil_append, filter_own_markers, List.nil_append]
  have hA : (processEarthquakeData F s0 (some A)).page.markers =
      newMarkers F s0.nextLayerId (sortNewestFirst A) := by
    rw [processEarthquakeData_some]
    rfl
  refine ⟨hB, ?_, hlen _ _, ?_, hlen⟩
  · rw [hL, hB]
  · rw [hL, hA]
    intro m hm a ha
    have h1 := (id_newMarkers F _ _ m hm).1
    have h2 := (id_newMarkers F _ _ a ha).2
    rw [length_sortNewestFirst] at h2
    omega

theorem markers_fully_replaced_witness :
    (processEarthquakeData plainFmt
        (processEarthquakeData plainFmt (start "day" "all") (some [quakeAt 1 .null])).page
        (some [quakeAt 2 .null, quakeAt 3 .null])).page.markers =
      newMarkers plainFmt ((start "day" "all").nextLayerId + [quakeAt 1 .null].length)
        (sortNewestFirst [quakeAt 2 .null, quakeAt 3 .null]) ∧
    (processEarthquakeData plainFmt
        (processEarthquakeData plainFmt (start "day" "all") (some [quakeAt 1 .null])).page
        (some [quakeAt 2 .null, quakeAt 3 .null])).page.mapLayers =
      (processEarthquakeData plainFmt
        (processEarthquakeData plainFmt (start "day" "all") (some [quakeAt 1 .null])).page
        (some [quakeAt 2 .null, quakeAt 3 .null])).page.markers ∧
    (processEarthquakeData plainFmt
        (processEarthquakeData plainFmt (start "day" "all") (some [quakeAt 1 .null])).page
        (some [quakeAt 2 .null, quakeAt 3 .null])).page.markers.length =
      [quakeAt 2 .null, quakeAt 3 .null].length ∧
    (∀ m ∈ (processEarthquakeData plainFmt
        (processEarthquakeData plainFmt (start "day" "all") (some [quakeAt 1 .null])).page
        (some [quakeAt 2 .null, quakeAt 3 .null])).page.mapLayers,
      ∀ a ∈ (processEarthquakeData plainFmt (start "day" "all")
        (some [quakeAt 1 .null])).page.markers, m.id ≠ a.id) ∧
    (∀ (s : Page) (es : List Event),
      (processEarthquakeData plainFmt s (some es)).page.markers.length = es.length) :=
  markers_fully_replaced plainFmt "day" "all" [] (start "day" "all")
    [quakeAt 1 .null] [quakeAt 2 .null, quakeAt 3 .null] rfl

/-! ## Failed cycles -/

/-- C5, as the claim states it, fails: a click on the refresh button while the
first fetch is still in flight leaves two network calls outstanding. -/
theorem refresh_click_in_flight_two_outstanding :
    (start "day" "all").outstanding = 1 ∧
    (run plainFmt (start "day" "all") [.refreshClick]).map Page.outstanding = some 2 := by
  exact ⟨rfl, rfl⟩

/-- C5, amended: the script has no single-flight guard.  Every manual trigger
(refresh button, selector change) and every periodic tick delivered to the page
issues one more network call, whatever the number already outstanding: the
outstanding count is one more than before and the new request is the URL of
the current selector values. -/
theorem trigger_always_fetches (F : Fmt) (s s1 : Page) (a : Action)
    (htrig : a.isTrigger = true) (hstep : step F s a = some s1) :
    s1.outstanding = s.outstanding + 1 ∧
    s1.pending = s.pending ++ [feedUrl s1.timeRange s1.minMagnitude] := by
  cases a with
  | refreshClick =>
    simp only [step, Option.some.injEq] at hstep
    subst hstep
    simp [Page.outstanding, fetchEarthquakeData, updateRefreshStatus]
  | timeRangeChange v =>
    simp only [step, Option.some.injEq] at hstep
    subst hstep
    simp [Page.outstanding, fetchEarthquakeData, updateRefreshStatus]
  | minMagnitudeChange v =>
    simp only [step, Option.some.injEq] at hstep
    subst hstep
    simp [Page.outstanding, fetchEarthquakeData, updateRefreshStatus]
  | tick t =>
    simp only [step] at hstep
    split at hstep
    · simp only [Option.some.injEq] at hstep
      subst hstep
      simp [Page.outstanding, fetchEarthquakeData, updateRefreshStatus]
    · exact absurd hstep (by simp)
  | autoRefreshClick => simp [Action.isTrigger] at htrig
  | settle i r now => simp [Action.isTrigger] at htrig

theorem trigger_always_fetches_witness :
    (toggleAutoRefresh (start "week" "2.5")).outstanding = 1 ∧
    (fetchEarthquakeData (toggleAutoRefresh (start "week" "2.5"))).outstanding =
      (toggleAutoRefresh (start "week" "2.5")).outstanding + 1 ∧
    (fetchEarthquakeData (toggleAutoRefresh (start "week" "2.5"))).pending =
      (toggleAutoRefresh (start "week" "2.5")).pending ++
        [feedUrl (fetchEarthquakeData (toggleAutoRefresh (start "week" "2.5"))).timeRange
          (fetchEarthquakeData (toggleAutoRefresh (start "week" "2.5"))).minMagnitude] :=
  ⟨rfl,
    trigger_always_fetches plainFmt (toggleAutoRefresh (start "week" "2.5"))
      (fetchEarthquakeData (toggleAutoRefresh (start "week" "2.5"))) (.tick 0) rfl rfl⟩

/-! ## Auto-refresh timer -/

theorem toggleAutoRefresh_timer (s : Page)
    (h : s.liveTimers = s.autoRefreshInterval.toList ∧
      s.autoRefreshInterval.isSome = s.isAutoRefreshEnabled) :
    (toggleAutoRefresh s).liveTimers = (toggleAutoRefresh s).autoRefreshInterval.toList ∧
    (toggleAutoRefresh s).autoRefreshInterval.isSome = (toggleAutoRefresh s).isAutoRefreshEnabled ∧
    (toggleAutoRefresh s).isAutoRefreshEnabled = !s.isAutoRefreshEnabled := by
  obtain ⟨h1, h2⟩ := h
  cases he : s.isAutoRefreshEnabled with
  | false =>
    rw [he] at h2
    have hn : s.autoRefreshInterval = none := by
      cases hi : s.autoRefreshInterval with
      | none => rfl
      | some t => simp [hi] at h2
    rw [hn] at h1
    simp [toggleAutoRefresh, updateRefreshStatus, he, h1]
  | true =>
    rw [he] at h2
    cases hi : s.autoRefreshInterval with
    | none => simp [hi] at h2
    | some t =>
      rw [hi] at h1
      simp [toggleAutoRefresh, updateRefreshStatus, he, h1, hi, clearInterval]

theorem iterate_toggle_timer (timeRange minMagnitude : String) (n : Nat) :
    (Nat.iterate toggleAutoRefresh n (start timeRange minMagnitude)).liveTimers =
      (Nat.iterate toggleAutoRefresh n (start timeRange minMagnitude)).autoRefreshInterval.toList ∧
    (Nat.iterate toggleAutoRefresh n (start timeRange minMagnitude)).autoRefreshInterval.isSome =
      (Nat.iterate toggleAutoRefresh n (start timeRange minMagnitude)).isAutoRefreshEnabled := by
  induction n with
  | zero => exact ⟨rfl, rfl⟩
  | succ n ih =>
    rw [Function.iterate_succ_apply']
    have := toggleAutoRefresh_timer _ ih
    exact ⟨this.1, this.2.1⟩

/-- C10: from the state at the end of page load (auto-refresh disabled, no
timer), after any number of `toggleAutoRefresh` calls the timer handle is
present exactly when auto-refresh is enabled, the live interval timers are
exactly that handle (none when disabled, one when enabled, never two), and two
further toggles bring the enabled flag and the presence of the handle back to
what they were. -/
theorem timer_present_iff_enabled (timeRange minMagnitude : String) (n : Nat) :
    (start timeRange minMagnitude).isAutoRefreshEnabled = false ∧
    (start timeRange minMagnitude).autoRefreshInterval = none ∧
    (start timeRange minMagnitude).liveTimers = [] ∧
    (Nat.iterate toggleAutoRefresh n (start timeRange minMagnitude)).autoRefreshInterval.isSome =
      (Nat.iterate toggleAutoRefresh n (start timeRange minMagnitude)).isAutoRefreshEnabled ∧
    (Nat.iterate toggleAutoRefresh n (start timeRange minMagnitude)).liveTimers =
      (Nat.iterate toggleAutoRefresh n (start timeRange minMagnitude)).autoRefreshInterval.toList ∧
    (Nat.iterate toggleAutoRefresh n (start timeRange minMagnitude)).liveTimers.length ≤ 1 ∧
    ((Nat.iterate toggleAutoRefresh n (start timeRange minMagnitude)).isAutoRefreshEnabled = false ∧
        (Nat.iterate toggleAutoRefresh n (start timeRange minMagnitude)).liveTimers = [] ∨
      (Nat.iterate toggleAutoRefresh n (start timeRange minMagnitude)).isAutoRefreshEnabled = true ∧
        (Nat.iterate toggleAutoRefresh n (start timeRange minMagnitude)).liveTimers.length = 1) ∧
    (toggleAutoRefresh (toggleAutoRefresh
        (Nat.iterate toggleAutoRefresh n (start timeRange minMagnitude)))).isAutoRefreshEnabled =
      (Nat.iterate toggleAutoRefresh n (start timeRange minMagnitude)).isAutoRefreshEnabled ∧
    (toggleAutoRefresh (toggleAutoRefresh
        (Nat.iterate toggleAutoRefresh n
          (start timeRange minMagnitude)))).autoRefreshInterval.isSome =
      (Nat.iterate toggleAutoRefresh n (start timeRange minMagnitude)).autoRefreshInterval.isSome := by
  have ih := iterate_toggle_timer timeRange minMagnitude n
  generalize Nat.iterate toggleAutoRefresh n (start timeRange minMagnitude) = s at ih ⊢
  have t1 := toggleAutoRefresh_timer s ih
  have t2 := toggleAutoRefresh_timer (toggleAutoRefresh s) ⟨t1.1, t1.2.1⟩
  obtain ⟨h1, h2⟩ := ih
  refine ⟨rfl, rfl, rfl, h2, h1, ?_, ?_, ?_, ?_⟩
  · rw [h1]
    cases s.autoRefreshInterval <;> simp
  · rw [h1, ← h2]
    cases s.autoRefreshInterval <;> simp
  · rw [t2.2.2, t1.2.2]
    simp
  · rw [t2.2.1, t2.2.2, t1.2.2, h2]
    simp

end EarthquakeMonitor
